import Mathlib

/-!
# Verification of the `public_code_examples` VNA driver

Shallow embedding of `src/public_code_examples/drivers/znb.py` (class `VNA`)
and proofs of the specification claims about it.

Modelling choices:

* The instrument behind the pyvisa connection is modelled as a state
  (`InstrState`): a status-byte register, the next pending error message, and
  an oracle answering the remaining (data) queries.  Writing `*CLS` clears the
  status byte; other writes leave the register unchanged.  The Python code
  reads the status byte as `int(self.connection.query("*STB?"))`; since the
  instrument answers that query with the decimal representation of the
  register and `int` parses it back, the composition is modelled as reading
  the register value directly (the query is still recorded in the I/O log).
* Every transport interaction is recorded in an I/O log (`IOEvent`), so that
  claims about "no instrument I/O" / "sent exactly once" are statements about
  the log.
* Python exceptions become `Except PyError`; the state reached at the moment
  an exception is raised is still returned, so the I/O performed before the
  exception is observable.
* `VNA.write` and `VNA.get_error_status` are mutually recursive in the source
  (`get_error_status` calls `self.write("*CLS")`), so they are embedded with a
  fuel parameter; the theorems show a small constant fuel suffices.
* Numeric payload values are real numbers; the comma-separated float payload
  of `CALCulate:DATa? Sdata` as parsed by `np.fromstring` with a comma separator is a
  `List ℝ`, and the parse function is a parameter of the embedding, since the
  claims quantify over the parsed payload.
* `np.reshape(val, (-1,2))` plus `np.transpose` is `reshape2`; it fails
  (numpy `ValueError`) exactly when the number of values is odd.
* `pydantic.validate_call` on `get_traces` validates the argument against the
  annotation `Tuple[str]`, which is the type of tuples of *exactly one*
  string; this guard is embedded explicitly.
-/

namespace Znb

/-- One transport interaction of the driver with the instrument. -/
inductive IOEvent where
  | writeEv (cmd : String)
  | queryEv (cmd : String)
deriving DecidableEq, Repr

/-- Python exceptions raised by the driver (plus fuel exhaustion, which the
theorems rule out). -/
inductive PyError where
  | runtimeError (msg : String)
  | valueError (msg : String)
  | validationError (msg : String)
  | outOfFuel
deriving DecidableEq, Repr

/-- The instrument on the far side of the pyvisa connection: a status-byte
register, the next pending error message, and an oracle for data queries. -/
structure InstrState where
  stb : Nat
  nextError : String
  dataResp : String → String

/-- Effect of a written command on the instrument: `*CLS` clears the status
byte, any other command leaves the modelled registers unchanged. -/
def instrApplyWrite (s : InstrState) (cmd : String) : InstrState :=
  if cmd = "*CLS" then { s with stb := 0 } else s

/-- Instrument answer to a query that is not the status-byte read. -/
def instrAnswer (s : InstrState) (q : String) : String :=
  if q = "SYSTem:ERRor:NEXT?" then s.nextError else s.dataResp q

/-- Driver-side state: the instrument and the log of transport I/O performed
so far. -/
structure VNAState where
  instr : InstrState
  log : List IOEvent

/-- `self.connection.write(cmd)`: send the command, record it. -/
def rawWrite (st : VNAState) (cmd : String) : VNAState :=
  { instr := instrApplyWrite st.instr cmd
    log := st.log ++ [IOEvent.writeEv cmd] }

/-- `self.connection.query(cmd)` for a non-status query: record it, return the
textual answer of the instrument. -/
def rawQuery (st : VNAState) (cmd : String) : String × VNAState :=
  (instrAnswer st.instr cmd, { st with log := st.log ++ [IOEvent.queryEv cmd] })

/-- `int(self.connection.query("*STB?"))`: record the status query, return the
numeric register value. -/
def rawStbQuery (st : VNAState) : Nat × VNAState :=
  (st.instr.stb, { st with log := st.log ++ [IOEvent.queryEv "*STB?"] })

mutual

/-- `VNA.write` (znb.py lines 75–85): send the command; if
`get_error_status()` reports an error, raise `RuntimeError` carrying the
command text. -/
def write (fuel : Nat) (st : VNAState) (cmd : String) :
    Except PyError Unit × VNAState :=
  match fuel with
  | 0 => (Except.error PyError.outOfFuel, st)
  | fuel + 1 =>
    let st1 := rawWrite st cmd
    match get_error_status fuel st1 with
    | (Except.error e, st2) => (Except.error e, st2)
    | (Except.ok true, st2) =>
        (Except.error (PyError.runtimeError ("command failed: " ++ cmd)), st2)
    | (Except.ok false, st2) => (Except.ok (), st2)

/-- `VNA.get_error_status` (znb.py lines 96–108): query the status byte; if
nonzero, query the next error message, then (in a `finally` block)
`self.write("*CLS")`, and return `True`; otherwise return `False`. -/
def get_error_status (fuel : Nat) (st : VNAState) :
    Except PyError Bool × VNAState :=
  match fuel with
  | 0 => (Except.error PyError.outOfFuel, st)
  | fuel + 1 =>
    let (stb, st1) := rawStbQuery st
    if stb ≠ 0 then
      let (_errMsgs, st2) := rawQuery st1 "SYSTem:ERRor:NEXT?"
      match write fuel st2 "*CLS" with
      | (Except.error e, st3) => (Except.error e, st3)
      | (Except.ok _, st3) => (Except.ok true, st3)
    else
      (Except.ok false, st1)

end

/-- `VNA.query` (znb.py lines 87–93): send the query, return the reply
verbatim; no post-query error check. -/
def query (st : VNAState) (cmd : String) : String × VNAState :=
  rawQuery st cmd

/-- Python `str.lower()` as applied to the (ASCII) data-format strings. -/
def pyLower (s : String) : String := String.mk (s.data.map Char.toLower)

/-- `np.reshape(val, (-1,2))` followed by `np.transpose`, kept as the list of
(real, imaginary) pairs; `none` when the flat value count is odd, in which
case numpy raises a `ValueError`. -/
def reshape2 : List ℝ → Option (List (ℝ × ℝ))
  | [] => some []
  | [_] => none
  | a :: b :: rest => (reshape2 rest).map (fun l => (a, b) :: l)

/-- The message of the numpy `ValueError` raised by `np.reshape` on an odd
value count. -/
def reshapeErrMsg : String := "cannot reshape array into shape (-1,2)"

/-- The message of the `ValueError` raised on an unrecognized data format
(znb.py line 154). -/
def badFormatMsg : String :=
  "data-format must be: real-imag, db-phase, amp-phase."

/-- One entry of `20.*np.log10(abs(real + 1j*imag))` (znb.py line 142). -/
noncomputable def dbOf (p : ℝ × ℝ) : ℝ :=
  20 * Real.logb 10 (Complex.abs ((p.1 : ℂ) + Complex.I * (p.2 : ℂ)))

/-- One entry of `np.angle(real + 1j*imag)` (znb.py lines 142/149);
`np.angle` is the two-argument arctangent of (imag, real), which on real
inputs is the principal argument of the complex number. -/
noncomputable def angleOf (p : ℝ × ℝ) : ℝ :=
  Complex.arg ((p.1 : ℂ) + Complex.I * (p.2 : ℂ))

/-- One entry of `abs(real + 1j*imag)**2` (znb.py line 149). -/
noncomputable def ampOf (p : ℝ × ℝ) : ℝ :=
  Complex.abs ((p.1 : ℂ) + Complex.I * (p.2 : ℂ)) ^ 2

/-- The pure tail of `VNA._get_data` (znb.py lines 134–154): reshape the
parsed payload into (real, imaginary) pairs and convert to the requested
representation.  The `except RuntimeError` handlers around the numeric
branches are dead code over real arithmetic (numpy floating-point division
by zero does not raise `RuntimeError`; cf. spec §9), so only the `try`
bodies are embedded. -/
noncomputable def getDataCompute (val : List ℝ) (data_format : String) :
    Except PyError (List ℝ × List ℝ) :=
  match reshape2 val with
  | none => Except.error (PyError.valueError reshapeErrMsg)
  | some pairs =>
    if pyLower data_format = "real-imag" then
      Except.ok (pairs.map Prod.fst, pairs.map Prod.snd)
    else if pyLower data_format = "db-phase" then
      Except.ok (pairs.map dbOf, pairs.map angleOf)
    else if pyLower data_format = "amp-phase" then
      Except.ok (pairs.map ampOf, pairs.map angleOf)
    else
      Except.error (PyError.valueError badFormatMsg)

/-- The trace-selection command sent by `_get_data` (znb.py line 131):
the percent-format of `CALC:PARameter:SEL` with the quoted trace name. -/
def selCmd (trace : String) : String :=
  "CALC:PARameter:SEL \"" ++ trace ++ "\""

/-- `VNA._get_data` (znb.py lines 116–154): select the trace (a checked
`write`), query the complex data, parse the comma-separated payload
(`np.fromstring`, modelled by the `parse` parameter) and convert it.  The
instrument I/O and the parse happen before the format string is examined. -/
noncomputable def _get_data (fuel : Nat) (parse : String → List ℝ)
    (st : VNAState) (trace : String) (data_format : String) :
    Except PyError (List ℝ × List ℝ) × VNAState :=
  match write fuel st (selCmd trace) with
  | (Except.error e, st1) => (Except.error e, st1)
  | (Except.ok _, st1) =>
    let (valStr, st2) := query st1 "CALCulate:DATa? Sdata"
    (getDataCompute (parse valStr) data_format, st2)

/-- The loop of `VNA.get_traces` (znb.py lines 176–181): apply `_get_data`
to each trace name in order, collecting the results; a raised exception
aborts the loop and propagates. -/
noncomputable def get_traces_loop (fuel : Nat) (parse : String → List ℝ)
    (st : VNAState) (traces : List String) (data_format : String) :
    Except PyError (List (List ℝ × List ℝ)) × VNAState :=
  match traces with
  | [] => (Except.ok [], st)
  | t :: rest =>
    match _get_data fuel parse st t data_format with
    | (Except.error e, st1) => (Except.error e, st1)
    | (Except.ok r, st1) =>
      match get_traces_loop fuel parse st1 rest data_format with
      | (Except.error e, st2) => (Except.error e, st2)
      | (Except.ok rs, st2) => (Except.ok (r :: rs), st2)

/-- `VNA.get_traces` (znb.py lines 157–181) including its `@validate_call`
guard: the parameter annotation `Tuple[str]` denotes tuples of *exactly one*
string, so pydantic raises a `ValidationError` for any other length before
the body runs. -/
noncomputable def get_traces (fuel : Nat) (parse : String → List ℝ)
    (st : VNAState) (traces : List String) (data_format : String) :
    Except PyError (List (List ℝ × List ℝ)) × VNAState :=
  if traces.length = 1 then
    get_traces_loop fuel parse st traces data_format
  else
    (Except.error (PyError.validationError
        "validation error for get_traces: traces: Tuple should have 1 item"),
      st)

/-! ## Specification-side definitions

These follow the words of the spec, to be compared with the embedded code. -/

/-- From the spec: the magnitude |z| of z = real + i·imaginary. -/
noncomputable def specAbs (re im : ℝ) : ℝ := Real.sqrt (re ^ 2 + im ^ 2)

/-- From the spec: `atan2(y, x)`, the standard two-argument arctangent
(angle of the point (x, y), in radians, in (-π, π]). -/
noncomputable def atan2 (y x : ℝ) : ℝ :=
  if 0 < x then Real.arctan (y / x)
  else if x < 0 ∧ 0 ≤ y then Real.arctan (y / x) + Real.pi
  else if x < 0 ∧ y < 0 then Real.arctan (y / x) - Real.pi
  else if x = 0 ∧ 0 < y then Real.pi / 2
  else if x = 0 ∧ y < 0 then -(Real.pi / 2)
  else 0

/-- Interleave a real sequence and an imaginary sequence into the flat
payload r1, i1, r2, i2, … . -/
def interleave : List ℝ → List ℝ → List ℝ
  | r :: rs, i :: is => r :: i :: interleave rs is
  | _, _ => []

/-! ## Concrete example states, used by witnesses and counterexamples -/

/-- An instrument with a clear status byte whose data query answers
"1,0,0,1". -/
def instr0 : InstrState :=
  { stb := 0, nextError := "", dataResp := fun _ => "1,0,0,1" }

/-- Driver state at the start of a run: clear status, empty log. -/
def st0 : VNAState := { instr := instr0, log := [] }

/-- An instrument reporting a pending error (status byte 4). -/
def stErr : VNAState :=
  { instr := { stb := 4, nextError := "-113,\"Undefined header\"",
               dataResp := fun _ => "1,0,0,1" }
    log := [] }

/-- A concrete stand-in for the `np.fromstring` parse that handles the
payload "1,0,0,1". -/
def parse0 : String → List ℝ :=
  fun s => if s = "1,0,0,1" then [1, 0, 0, 1] else []

/-- A concrete parse producing an odd number of values, as from a truncated
payload. -/
def parseOdd : String → List ℝ :=
  fun _ => [1, 2, 3]

end Znb

/-! ## Helper lemmas -/

namespace Znb

theorem sqrt_one_add_div_sq {x : ℝ} (y : ℝ) (hx : x ≠ 0) :
    Real.sqrt (1 + (y / x) ^ 2) = Real.sqrt (x ^ 2 + y ^ 2) / |x| := by
  have h : 1 + (y / x) ^ 2 = (x ^ 2 + y ^ 2) / x ^ 2 := by
    field_simp
  rw [h, Real.sqrt_div (by positivity), Real.sqrt_sq_eq_abs]

theorem sqrt_sq_add_sq_mul_cos_arctan {x : ℝ} (y : ℝ) (hx : x ≠ 0) :
    Real.sqrt (x ^ 2 + y ^ 2) * Real.cos (Real.arctan (y / x)) = |x| := by
  have hr : 0 < Real.sqrt (x ^ 2 + y ^ 2) := Real.sqrt_pos.mpr (by positivity)
  rw [Real.cos_arctan, sqrt_one_add_div_sq y hx]
  have habs : |x| ≠ 0 := abs_ne_zero.mpr hx
  field_simp

theorem sqrt_sq_add_sq_mul_sin_arctan {x : ℝ} (y : ℝ) (hx : x ≠ 0) :
    Real.sqrt (x ^ 2 + y ^ 2) * Real.sin (Real.arctan (y / x)) = y * |x| / x := by
  have hr : 0 < Real.sqrt (x ^ 2 + y ^ 2) := Real.sqrt_pos.mpr (by positivity)
  rw [Real.sin_arctan, sqrt_one_add_div_sq y hx]
  have habs : |x| ≠ 0 := abs_ne_zero.mpr hx
  field_simp
  ring

theorem arg_of_polar {x y r θ : ℝ} (hr : 0 < r)
    (hθ : θ ∈ Set.Ioc (-Real.pi) Real.pi)
    (hc : r * Real.cos θ = x) (hs : r * Real.sin θ = y) :
    Complex.arg ⟨x, y⟩ = θ := by
  have h1 : (⟨x, y⟩ : ℂ) =
      (r : ℂ) * (Complex.cos (θ : ℂ) + Complex.sin (θ : ℂ) * Complex.I) := by
    rw [← Complex.ofReal_cos, ← Complex.ofReal_sin, ← hc, ← hs,
      Complex.mk_eq_add_mul_I]
    push_cast
    ring
  rw [h1, Complex.arg_mul_cos_add_sin_mul_I hr hθ]

/-- The spec-side two-argument arctangent agrees with the principal argument
of the complex number x + i·y. -/
theorem atan2_eq_arg (y x : ℝ) : atan2 y x = Complex.arg ⟨x, y⟩ := by
  have hr : ∀ x y : ℝ, x ≠ 0 → 0 < Real.sqrt (x ^ 2 + y ^ 2) := by
    intro x y hx
    exact Real.sqrt_pos.mpr (by positivity)
  rcases lt_trichotomy x 0 with hx | hx | hx
  · rcases le_or_lt 0 y with hy | hy
    · have h0 : y / x ≤ 0 := div_nonpos_of_nonneg_of_nonpos hy hx.le
      have hat : Real.arctan (y / x) ≤ 0 := by
        have := Real.arctan_strictMono.monotone h0
        rwa [Real.arctan_zero] at this
      rw [atan2, if_neg (by linarith), if_pos ⟨hx, hy⟩]
      refine (arg_of_polar (hr x y hx.ne) ⟨?_, ?_⟩ ?_ ?_).symm
      · linarith [Real.neg_pi_div_two_lt_arctan (y / x), Real.pi_pos]
      · linarith
      · rw [Real.cos_add_pi, mul_neg, sqrt_sq_add_sq_mul_cos_arctan y hx.ne,
          abs_of_neg hx]
        ring
      · rw [Real.sin_add_pi, mul_neg, sqrt_sq_add_sq_mul_sin_arctan y hx.ne,
          abs_of_neg hx]
        field_simp
        rw [mul_div_assoc, div_self hx.ne, mul_one]
    · have h0 : 0 < y / x := div_pos_of_neg_of_neg hy hx
      have hat : 0 < Real.arctan (y / x) := by
        have := Real.arctan_strictMono h0
        rwa [Real.arctan_zero] at this
      rw [atan2, if_neg (by linarith), if_neg (by rintro ⟨-, h⟩; linarith),
        if_pos ⟨hx, hy⟩]
      refine (arg_of_polar (hr x y hx.ne) ⟨?_, ?_⟩ ?_ ?_).symm
      · linarith
      · linarith [Real.arctan_lt_pi_div_two (y / x), Real.pi_pos]
      · rw [Real.cos_sub_pi, mul_neg, sqrt_sq_add_sq_mul_cos_arctan y hx.ne,
          abs_of_neg hx]
        ring
      · rw [Real.sin_sub_pi, mul_neg, sqrt_sq_add_sq_mul_sin_arctan y hx.ne,
          abs_of_neg hx]
        field_simp
        rw [mul_div_assoc, div_self hx.ne, mul_one]
  · subst hx
    rcases lt_trichotomy y 0 with hy | hy | hy
    · rw [atan2, if_neg (lt_irrefl 0),
        if_neg (by rintro ⟨h, -⟩; exact absurd h (lt_irrefl 0)),
        if_neg (by rintro ⟨h, -⟩; exact absurd h (lt_irrefl 0)),
        if_neg (by rintro ⟨-, h⟩; linarith), if_pos ⟨rfl, hy⟩]
      exact (Complex.arg_eq_neg_pi_div_two_iff.mpr ⟨rfl, hy⟩).symm
    · subst hy
      rw [atan2]
      norm_num
      have h00 : (⟨0, 0⟩ : ℂ) = 0 := by
        apply Complex.ext <;> simp
      rw [h00, Complex.arg_zero]
    · rw [atan2, if_neg (lt_irrefl 0),
        if_neg (by rintro ⟨h, -⟩; exact absurd h (lt_irrefl 0)),
        if_neg (by rintro ⟨h, -⟩; exact absurd h (lt_irrefl 0)),
        if_pos ⟨rfl, hy⟩]
      exact (Complex.arg_eq_pi_div_two_iff.mpr ⟨rfl, hy⟩).symm
  · rw [atan2, if_pos hx]
    refine (arg_of_polar (hr x y hx.ne') ⟨?_, ?_⟩ ?_ ?_).symm
    · linarith [Real.neg_pi_div_two_lt_arctan (y / x), Real.pi_pos]
    · linarith [Real.arctan_lt_pi_div_two (y / x), Real.pi_pos]
    · rw [sqrt_sq_add_sq_mul_cos_arctan y hx.ne', abs_of_pos hx]
    · rw [sqrt_sq_add_sq_mul_sin_arctan y hx.ne', abs_of_pos hx]
      field_simp

/-- The code expression real + 1j·imag, as the complex number ⟨real, imag⟩. -/
theorem addI (x y : ℝ) : (x : ℂ) + Complex.I * (y : ℂ) = ⟨x, y⟩ := by
  apply Complex.ext <;> simp

/-- The complex absolute value is the spec-side magnitude. -/
theorem absMk (x y : ℝ) : Complex.abs ⟨x, y⟩ = specAbs x y := by
  rw [Complex.abs_apply, Complex.normSq_mk]
  unfold specAbs
  congr 1
  ring

theorem dbOf_eq (p : ℝ × ℝ) : dbOf p = 20 * Real.logb 10 (specAbs p.1 p.2) := by
  simp only [dbOf, addI, absMk]

theorem angleOf_eq (p : ℝ × ℝ) : angleOf p = atan2 p.2 p.1 := by
  simp only [angleOf, addI, atan2_eq_arg]

theorem ampOf_eq (p : ℝ × ℝ) : ampOf p = specAbs p.1 p.2 ^ 2 := by
  simp only [ampOf, addI, absMk]

theorem reshape2_even : ∀ (N : Nat) (val : List ℝ), val.length = 2 * N →
    ∃ pairs, reshape2 val = some pairs ∧ pairs.length = N := by
  intro N
  induction N with
  | zero =>
    intro val h
    rw [Nat.mul_zero] at h
    rw [List.length_eq_zero.mp h]
    exact ⟨[], rfl, rfl⟩
  | succ n ih =>
    intro val h
    cases val with
    | nil => simp at h
    | cons a tail =>
      cases tail with
      | nil => simp at h; omega
      | cons b rest =>
        have hr : rest.length = 2 * n := by simp at h; omega
        obtain ⟨pairs, hp, hl⟩ := ih rest hr
        exact ⟨(a, b) :: pairs, by simp [reshape2, hp], by simp [hl]⟩

theorem reshape2_odd : ∀ (val : List ℝ), val.length % 2 = 1 →
    reshape2 val = none := by
  intro val
  induction val using reshape2.induct with
  | case1 => intro h; simp at h
  | case2 a => intro h; rfl
  | case3 a b rest ih =>
    intro h
    have hr : rest.length % 2 = 1 := by simp at h ⊢; omega
    simp [reshape2, ih hr]

theorem reshape2_interleave : ∀ (rs is : List ℝ), rs.length = is.length →
    reshape2 (interleave rs is) = some (rs.zip is) := by
  intro rs
  induction rs with
  | nil =>
    intro is h
    cases is with
    | nil => rfl
    | cons i is => simp at h
  | cons r rs ih =>
    intro is h
    cases is with
    | nil => simp at h
    | cons i is =>
      have h2 : rs.length = is.length := by simpa using h
      simp [interleave, reshape2, ih is h2]

theorem instrApplyWrite_stb_zero (s : InstrState) (cmd : String)
    (h : s.stb = 0) : (instrApplyWrite s cmd).stb = 0 := by
  unfold instrApplyWrite
  split <;> simp [h]

theorem instrAnswer_instrApplyWrite (s : InstrState) (cmd q : String) :
    instrAnswer (instrApplyWrite s cmd) q = instrAnswer s q := by
  unfold instrApplyWrite instrAnswer
  split <;> split <;> rfl

end Znb

namespace Znb

theorem instrApplyWrite_set_stb_zero (s : InstrState) (cmd : String) :
    { instrApplyWrite s cmd with stb := 0 } = { s with stb := 0 } := by
  unfold instrApplyWrite
  split <;> rfl

theorem instrApplyWrite_nextError (s : InstrState) (cmd : String) :
    (instrApplyWrite s cmd).nextError = s.nextError := by
  unfold instrApplyWrite
  split <;> rfl

theorem instrApplyWrite_dataResp (s : InstrState) (cmd : String) :
    (instrApplyWrite s cmd).dataResp = s.dataResp := by
  unfold instrApplyWrite
  split <;> rfl

/-- On a clear status byte, the error-status check reports false after the
single status query. -/
theorem ges_zero (fuel : Nat) (hf : 1 ≤ fuel) (st : VNAState)
    (h0 : st.instr.stb = 0) :
    get_error_status fuel st =
      (Except.ok false,
       { st with log := st.log ++ [IOEvent.queryEv "*STB?"] }) := by
  obtain ⟨k, rfl⟩ : ∃ k, fuel = k + 1 := ⟨fuel - 1, by omega⟩
  simp [get_error_status, rawStbQuery, h0]

/-- On a set status byte, the error-status check queries the pending error,
clears status with `*CLS` and reports true. -/
theorem ges_nonzero (fuel : Nat) (hf : 3 ≤ fuel) (st : VNAState)
    (hne : st.instr.stb ≠ 0) :
    get_error_status fuel st =
      (Except.ok true,
       { instr := { st.instr with stb := 0 }
         log := st.log ++
           [IOEvent.queryEv "*STB?", IOEvent.queryEv "SYSTem:ERRor:NEXT?",
            IOEvent.writeEv "*CLS", IOEvent.queryEv "*STB?"] }) := by
  obtain ⟨k, rfl⟩ : ∃ k, fuel = k + 3 := ⟨fuel - 3, by omega⟩
  simp [get_error_status, rawStbQuery, rawQuery, hne, write, rawWrite,
    instrApplyWrite, instrAnswer, List.append_assoc]

/-- A `write` whose subsequent status read is 0 returns normally. -/
theorem write_ok (fuel : Nat) (hf : 2 ≤ fuel) (st : VNAState) (cmd : String)
    (h0 : (instrApplyWrite st.instr cmd).stb = 0) :
    write fuel st cmd =
      (Except.ok (),
       { instr := instrApplyWrite st.instr cmd
         log := st.log ++ [IOEvent.writeEv cmd, IOEvent.queryEv "*STB?"] }) := by
  obtain ⟨k, rfl⟩ : ∃ k, fuel = k + 2 := ⟨fuel - 2, by omega⟩
  have h1 := ges_zero (k + 1) (by omega) (rawWrite st cmd)
    (by simpa [rawWrite] using h0)
  simp only [rawWrite] at h1
  simp [write, h1, rawWrite, List.append_assoc]

/-- A `write` whose subsequent status read is nonzero raises `RuntimeError`
carrying the command, after the error queue query and one `*CLS`. -/
theorem write_fail (fuel : Nat) (hf : 4 ≤ fuel) (st : VNAState) (cmd : String)
    (hne : (instrApplyWrite st.instr cmd).stb ≠ 0) :
    write fuel st cmd =
      (Except.error (PyError.runtimeError ("command failed: " ++ cmd)),
       { instr := { st.instr with stb := 0 }
         log := st.log ++
           [IOEvent.writeEv cmd, IOEvent.queryEv "*STB?",
            IOEvent.queryEv "SYSTem:ERRor:NEXT?", IOEvent.writeEv "*CLS",
            IOEvent.queryEv "*STB?"] }) := by
  obtain ⟨k, rfl⟩ : ∃ k, fuel = k + 4 := ⟨fuel - 4, by omega⟩
  have h1 := ges_nonzero (k + 3) (by omega) (rawWrite st cmd)
    (by simpa [rawWrite] using hne)
  simp only [rawWrite] at h1
  simp [write, h1, rawWrite, List.append_assoc,
    instrApplyWrite_nextError, instrApplyWrite_dataResp]

/-- C4: the error-status check queries the status byte (`*STB?`); when the
value is nonzero it queries the next pending error message
(`SYSTem:ERRor:NEXT?`), then unconditionally sends `*CLS`, and reports true;
when the value is zero it reports false with no instrument I/O beyond the
status query. -/
theorem get_error_status_spec (fuel : Nat) (hf : 3 ≤ fuel) (st : VNAState) :
    (st.instr.stb = 0 →
      get_error_status fuel st =
        (Except.ok false,
         { st with log := st.log ++ [IOEvent.queryEv "*STB?"] })) ∧
    (st.instr.stb ≠ 0 →
      get_error_status fuel st =
        (Except.ok true,
         { instr := { st.instr with stb := 0 }
           log := st.log ++
             [IOEvent.queryEv "*STB?", IOEvent.queryEv "SYSTem:ERRor:NEXT?",
              IOEvent.writeEv "*CLS", IOEvent.queryEv "*STB?"] })) :=
  ⟨fun h0 => ges_zero fuel (by omega) st h0,
   fun hne => ges_nonzero fuel hf st hne⟩

end Znb

namespace Znb

/-- C3: `write` sends the command and then checks instrument status.  If the
status byte reads 0 the call returns normally; if it is nonzero the call
raises a `RuntimeError` whose message carries the original command text, and
the status-clearing command `*CLS` is sent exactly once. -/
theorem write_spec (fuel : Nat) (hf : 4 ≤ fuel) (st : VNAState) (cmd : String) :
    ((instrApplyWrite st.instr cmd).stb = 0 →
      write fuel st cmd =
        (Except.ok (),
         { instr := instrApplyWrite st.instr cmd
           log := st.log ++ [IOEvent.writeEv cmd, IOEvent.queryEv "*STB?"] })) ∧
    ((instrApplyWrite st.instr cmd).stb ≠ 0 →
      write fuel st cmd =
        (Except.error (PyError.runtimeError ("command failed: " ++ cmd)),
         { instr := { st.instr with stb := 0 }
           log := st.log ++
             [IOEvent.writeEv cmd, IOEvent.queryEv "*STB?",
              IOEvent.queryEv "SYSTem:ERRor:NEXT?", IOEvent.writeEv "*CLS",
              IOEvent.queryEv "*STB?"] }) ∧
      [IOEvent.writeEv cmd, IOEvent.queryEv "*STB?",
       IOEvent.queryEv "SYSTem:ERRor:NEXT?", IOEvent.writeEv "*CLS",
       IOEvent.queryEv "*STB?"].count (IOEvent.writeEv "*CLS") = 1) := by
  constructor
  · intro h0
    exact write_ok fuel (by omega) st cmd h0
  · intro hne
    have hcmd : cmd ≠ "*CLS" := by
      intro h
      apply hne
      simp [h, instrApplyWrite]
    refine ⟨write_fail fuel hf st cmd hne, ?_⟩
    simp [List.count_cons, hcmd]

end Znb

namespace Znb

theorem pyLower_real_imag : pyLower "real-imag" = "real-imag" := by decide

theorem pyLower_db_phase : pyLower "db-phase" = "db-phase" := by decide

theorem pyLower_amp_phase : pyLower "amp-phase" = "amp-phase" := by decide

/-- On a clear status byte, `_get_data` performs the trace-select write, the
status query of its error check, and the data query, then computes the
result from the parsed payload. -/
theorem get_data_io (fuel : Nat) (hf : 2 ≤ fuel) (parse : String → List ℝ)
    (st : VNAState) (trace data_format : String) (hstb : st.instr.stb = 0) :
    _get_data fuel parse st trace data_format =
      (getDataCompute (parse (instrAnswer st.instr "CALCulate:DATa? Sdata"))
        data_format,
       { instr := instrApplyWrite st.instr (selCmd trace)
         log := st.log ++
           [IOEvent.writeEv (selCmd trace), IOEvent.queryEv "*STB?",
            IOEvent.queryEv "CALCulate:DATa? Sdata"] }) := by
  have hw := write_ok fuel hf st (selCmd trace)
    (instrApplyWrite_stb_zero _ _ hstb)
  simp only [_get_data, hw, query, rawQuery, instrAnswer_instrApplyWrite,
    List.append_assoc, List.cons_append, List.nil_append]

end Znb

namespace Znb

/-- Witness for C3: a concrete command on a clear instrument returns
normally, and a concrete command on an instrument with status byte 4 raises
the command error and sends `*CLS` exactly once. -/
theorem write_spec_witness :
    write 4 st0 "FORMat:DATA ASCii" =
      (Except.ok (),
       { instr := instrApplyWrite st0.instr "FORMat:DATA ASCii"
         log := st0.log ++ [IOEvent.writeEv "FORMat:DATA ASCii",
                            IOEvent.queryEv "*STB?"] }) ∧
    (write 4 stErr "*RST" =
      (Except.error (PyError.runtimeError ("command failed: " ++ "*RST")),
       { instr := { stErr.instr with stb := 0 }
         log := stErr.log ++
           [IOEvent.writeEv "*RST", IOEvent.queryEv "*STB?",
            IOEvent.queryEv "SYSTem:ERRor:NEXT?", IOEvent.writeEv "*CLS",
            IOEvent.queryEv "*STB?"] }) ∧
     [IOEvent.writeEv "*RST", IOEvent.queryEv "*STB?",
      IOEvent.queryEv "SYSTem:ERRor:NEXT?", IOEvent.writeEv "*CLS",
      IOEvent.queryEv "*STB?"].count (IOEvent.writeEv "*CLS") = 1) :=
  ⟨(write_spec 4 le_rfl st0 "FORMat:DATA ASCii").1 (by decide),
   (write_spec 4 le_rfl stErr "*RST").2 (by decide)⟩

/-- Witness for C4: the error-status check on a clear instrument reports
false after one query; on an instrument with status byte 4 it reports true
after the error query and `*CLS`. -/
theorem get_error_status_spec_witness :
    get_error_status 3 st0 =
      (Except.ok false,
       { st0 with log := st0.log ++ [IOEvent.queryEv "*STB?"] }) ∧
    get_error_status 3 stErr =
      (Except.ok true,
       { instr := { stErr.instr with stb := 0 }
         log := stErr.log ++
           [IOEvent.queryEv "*STB?", IOEvent.queryEv "SYSTem:ERRor:NEXT?",
            IOEvent.writeEv "*CLS", IOEvent.queryEv "*STB?"] }) :=
  ⟨(get_error_status_spec 3 le_rfl st0).1 rfl,
   (get_error_status_spec 3 le_rfl stErr).2 (by decide)⟩

/-- C1 counterexample: on the unrecognized format "bogus", `_get_data` does
raise the invalid-argument error, but its I/O log is not empty: the
trace-select write, its status query, and the data query were all performed
before the error was raised, contradicting the claim that no instrument I/O
happens. -/
theorem get_data_bad_format_counterexample :
    (_get_data 2 parse0 st0 "Trc1" "bogus").1 =
      Except.error (PyError.valueError badFormatMsg) ∧
    (_get_data 2 parse0 st0 "Trc1" "bogus").2.log =
      [IOEvent.writeEv (selCmd "Trc1"), IOEvent.queryEv "*STB?",
       IOEvent.queryEv "CALCulate:DATa? Sdata"] ∧
    (_get_data 2 parse0 st0 "Trc1" "bogus").2.log ≠ [] := by
  refine ⟨rfl, rfl, ?_⟩
  have h : (_get_data 2 parse0 st0 "Trc1" "bogus").2.log =
      [IOEvent.writeEv (selCmd "Trc1"), IOEvent.queryEv "*STB?",
       IOEvent.queryEv "CALCulate:DATa? Sdata"] := rfl
  rw [h]
  simp

/-- C1 amended: on a clear status byte and an even-count payload, every
format string lowercasing to none of the three names makes `_get_data` raise
the invalid-argument error — but only after the trace-select write, its
status query, and the data query have been performed. -/
theorem get_data_bad_format (fuel : Nat) (hf : 2 ≤ fuel)
    (parse : String → List ℝ) (st : VNAState) (trace fmt : String)
    (pairs : List (ℝ × ℝ)) (hstb : st.instr.stb = 0)
    (hpar : reshape2 (parse (instrAnswer st.instr "CALCulate:DATa? Sdata")) =
      some pairs)
    (h1 : pyLower fmt ≠ "real-imag") (h2 : pyLower fmt ≠ "db-phase")
    (h3 : pyLower fmt ≠ "amp-phase") :
    (_get_data fuel parse st trace fmt).1 =
      Except.error (PyError.valueError badFormatMsg) ∧
    (_get_data fuel parse st trace fmt).2.log =
      st.log ++ [IOEvent.writeEv (selCmd trace), IOEvent.queryEv "*STB?",
                 IOEvent.queryEv "CALCulate:DATa? Sdata"] := by
  rw [get_data_io fuel hf parse st trace fmt hstb]
  constructor
  · simp only [getDataCompute, hpar]
    rw [if_neg h1, if_neg h2, if_neg h3]
  · rfl

/-- Witness for the amended C1 at the format "WRONG". -/
theorem get_data_bad_format_witness :
    (_get_data 2 parse0 st0 "Trc1" "WRONG").1 =
      Except.error (PyError.valueError badFormatMsg) ∧
    (_get_data 2 parse0 st0 "Trc1" "WRONG").2.log =
      st0.log ++ [IOEvent.writeEv (selCmd "Trc1"), IOEvent.queryEv "*STB?",
                  IOEvent.queryEv "CALCulate:DATa? Sdata"] :=
  get_data_bad_format 2 le_rfl parse0 st0 "Trc1" "WRONG" [(1, 0), (0, 1)]
    rfl rfl (by decide) (by decide) (by decide)

/-- C2 at its failing input: the `@validate_call` annotation `Tuple[str]`
admits only one-element tuples, so `get_traces` rejects the two-element
tuple ("Trc1", "Trc2") with a validation error before any instrument I/O,
contradicting the claim (and the docstring of the function itself) that
sequences of any length are accepted. -/
theorem get_traces_two_names_rejected :
    (get_traces 4 parse0 st0 ["Trc1", "Trc2"] "db-phase").1 =
      Except.error (PyError.validationError
        "validation error for get_traces: traces: Tuple should have 1 item") ∧
    (get_traces 4 parse0 st0 ["Trc1", "Trc2"] "db-phase").2.log = [] :=
  ⟨rfl, rfl⟩

end Znb

namespace Znb

/-- Pure form of C5: the conversion on a reshaped payload of N samples
returns two sequences of length N for every valid format. -/
theorem getDataCompute_lengths (fmt : String) (val : List ℝ) (N : Nat)
    (hfmt : fmt = "real-imag" ∨ fmt = "db-phase" ∨ fmt = "amp-phase")
    (hlen : val.length = 2 * N) :
    ∃ a b, getDataCompute val fmt = Except.ok (a, b) ∧
      a.length = N ∧ b.length = N := by
  obtain ⟨pairs, hp, hl⟩ := reshape2_even N val hlen
  rcases hfmt with rfl | rfl | rfl
  · refine ⟨pairs.map Prod.fst, pairs.map Prod.snd, ?_, by simp [hl],
      by simp [hl]⟩
    simp only [getDataCompute, hp]
    rw [if_pos (by decide)]
  · refine ⟨pairs.map dbOf, pairs.map angleOf, ?_, by simp [hl],
      by simp [hl]⟩
    simp only [getDataCompute, hp]
    rw [if_neg (by decide), if_pos (by decide)]
  · refine ⟨pairs.map ampOf, pairs.map angleOf, ?_, by simp [hl],
      by simp [hl]⟩
    simp only [getDataCompute, hp]
    rw [if_neg (by decide), if_neg (by decide), if_pos (by decide)]

/-- Pure form of C6: the db-phase conversion maps each sample to its dB
magnitude and its two-argument arctangent phase. -/
theorem getDataCompute_db (val : List ℝ) (pairs : List (ℝ × ℝ))
    (hp : reshape2 val = some pairs) :
    getDataCompute val "db-phase" =
      Except.ok (pairs.map (fun p => 20 * Real.logb 10 (specAbs p.1 p.2)),
                 pairs.map (fun p => atan2 p.2 p.1)) := by
  have hdb : (dbOf : ℝ × ℝ → ℝ) =
      fun p => 20 * Real.logb 10 (specAbs p.1 p.2) := funext dbOf_eq
  have hang : (angleOf : ℝ × ℝ → ℝ) = fun p => atan2 p.2 p.1 :=
    funext angleOf_eq
  simp only [getDataCompute, hp, hdb, hang]
  rw [if_neg (by decide), if_pos (by decide)]

/-- Pure form of C7: the amp-phase conversion maps each sample to its squared
magnitude and its two-argument arctangent phase. -/
theorem getDataCompute_amp (val : List ℝ) (pairs : List (ℝ × ℝ))
    (hp : reshape2 val = some pairs) :
    getDataCompute val "amp-phase" =
      Except.ok (pairs.map (fun p => specAbs p.1 p.2 ^ 2),
                 pairs.map (fun p => atan2 p.2 p.1)) := by
  have hamp : (ampOf : ℝ × ℝ → ℝ) = fun p => specAbs p.1 p.2 ^ 2 :=
    funext ampOf_eq
  have hang : (angleOf : ℝ × ℝ → ℝ) = fun p => atan2 p.2 p.1 :=
    funext angleOf_eq
  simp only [getDataCompute, hp, hamp, hang]
  rw [if_neg (by decide), if_neg (by decide), if_pos (by decide)]

/-- Pure form of C8: the real-imag conversion returns the interleaved payload
unchanged. -/
theorem getDataCompute_ri (rs is : List ℝ) (h : rs.length = is.length) :
    getDataCompute (interleave rs is) "real-imag" = Except.ok (rs, is) := by
  have hz := reshape2_interleave rs is h
  simp only [getDataCompute, hz]
  rw [if_pos (by decide), List.map_fst_zip rs is (le_of_eq h),
    List.map_snd_zip rs is (le_of_eq h.symm)]

/-- Pure form of C9: the conversion dispatches on the lowercased format. -/
theorem getDataCompute_lower (s : String) (val : List ℝ) :
    (pyLower s = "real-imag" →
      getDataCompute val s = getDataCompute val "real-imag") ∧
    (pyLower s = "db-phase" →
      getDataCompute val s = getDataCompute val "db-phase") ∧
    (pyLower s = "amp-phase" →
      getDataCompute val s = getDataCompute val "amp-phase") ∧
    (pyLower s ≠ "real-imag" → pyLower s ≠ "db-phase" →
      pyLower s ≠ "amp-phase" →
      ∀ pairs, reshape2 val = some pairs →
        getDataCompute val s = Except.error (PyError.valueError badFormatMsg)) := by
  refine ⟨?_, ?_, ?_, ?_⟩
  · intro h
    simp only [getDataCompute, h, pyLower_real_imag]
  · intro h
    simp only [getDataCompute, h, pyLower_db_phase]
  · intro h
    simp only [getDataCompute, h, pyLower_amp_phase]
  · intro h1 h2 h3 pairs hp
    simp only [getDataCompute, hp]
    rw [if_neg h1, if_neg h2, if_neg h3]

end Znb

namespace Znb

/-- C5: for every valid format string and every payload parsing to N complex
samples (2N floats), `_get_data` returns exactly two sequences, each of
length N. -/
theorem get_data_valid_format_lengths (fuel : Nat) (hf : 2 ≤ fuel)
    (parse : String → List ℝ) (st : VNAState) (trace fmt : String) (N : Nat)
    (hstb : st.instr.stb = 0)
    (hfmt : fmt = "real-imag" ∨ fmt = "db-phase" ∨ fmt = "amp-phase")
    (hlen : (parse (instrAnswer st.instr "CALCulate:DATa? Sdata")).length =
      2 * N) :
    ∃ a b, (_get_data fuel parse st trace fmt).1 = Except.ok (a, b) ∧
      a.length = N ∧ b.length = N := by
  rw [get_data_io fuel hf parse st trace fmt hstb]
  exact getDataCompute_lengths fmt _ N hfmt hlen

/-- Witness for C5 at the format "amp-phase" and the payload 1,0,0,1. -/
theorem get_data_valid_format_lengths_witness :
    ∃ a b, (_get_data 2 parse0 st0 "Trc1" "amp-phase").1 = Except.ok (a, b) ∧
      a.length = 2 ∧ b.length = 2 :=
  get_data_valid_format_lengths 2 le_rfl parse0 st0 "Trc1" "amp-phase" 2
    rfl (Or.inr (Or.inr rfl)) rfl

/-- C6: in the db-phase format each magnitude entry is 20·log10 of the
sample magnitude and each phase entry is the two-argument arctangent
atan2(imaginary, real) of the sample. -/
theorem get_data_db_phase (fuel : Nat) (hf : 2 ≤ fuel)
    (parse : String → List ℝ) (st : VNAState) (trace : String)
    (pairs : List (ℝ × ℝ)) (hstb : st.instr.stb = 0)
    (hpar : reshape2 (parse (instrAnswer st.instr "CALCulate:DATa? Sdata")) =
      some pairs) :
    (_get_data fuel parse st trace "db-phase").1 =
      Except.ok (pairs.map (fun p => 20 * Real.logb 10 (specAbs p.1 p.2)),
                 pairs.map (fun p => atan2 p.2 p.1)) := by
  rw [get_data_io fuel hf parse st trace "db-phase" hstb]
  exact getDataCompute_db _ pairs hpar

/-- Witness for C6 at the payload 1,0,0,1 (samples z = 1 and z = i). -/
theorem get_data_db_phase_witness :
    (_get_data 2 parse0 st0 "Trc1" "db-phase").1 =
      Except.ok ([((1 : ℝ), (0 : ℝ)), (0, 1)].map
          (fun p => 20 * Real.logb 10 (specAbs p.1 p.2)),
        [((1 : ℝ), (0 : ℝ)), (0, 1)].map (fun p => atan2 p.2 p.1)) :=
  get_data_db_phase 2 le_rfl parse0 st0 "Trc1" [(1, 0), (0, 1)] rfl rfl

/-- C7: in the amp-phase format each power entry is the squared sample
magnitude and each phase entry is atan2(imaginary, real) of the sample. -/
theorem get_data_amp_phase (fuel : Nat) (hf : 2 ≤ fuel)
    (parse : String → List ℝ) (st : VNAState) (trace : String)
    (pairs : List (ℝ × ℝ)) (hstb : st.instr.stb = 0)
    (hpar : reshape2 (parse (instrAnswer st.instr "CALCulate:DATa? Sdata")) =
      some pairs) :
    (_get_data fuel parse st trace "amp-phase").1 =
      Except.ok (pairs.map (fun p => specAbs p.1 p.2 ^ 2),
                 pairs.map (fun p => atan2 p.2 p.1)) := by
  rw [get_data_io fuel hf parse st trace "amp-phase" hstb]
  exact getDataCompute_amp _ pairs hpar

/-- Witness for C7 at the payload 1,0,0,1 (samples z = 1 and z = i). -/
theorem get_data_amp_phase_witness :
    (_get_data 2 parse0 st0 "Trc1" "amp-phase").1 =
      Except.ok ([((1 : ℝ), (0 : ℝ)), (0, 1)].map
          (fun p => specAbs p.1 p.2 ^ 2),
        [((1 : ℝ), (0 : ℝ)), (0, 1)].map (fun p => atan2 p.2 p.1)) :=
  get_data_amp_phase 2 le_rfl parse0 st0 "Trc1" [(1, 0), (0, 1)] rfl rfl

/-- C8: the real-imag format returns the raw parsed values unchanged: on the
payload r1,i1,…,rN,iN the result is exactly ((r1,…,rN), (i1,…,iN)). -/
theorem get_data_real_imag (fuel : Nat) (hf : 2 ≤ fuel)
    (parse : String → List ℝ) (st : VNAState) (trace : String)
    (rs is : List ℝ) (hstb : st.instr.stb = 0) (h : rs.length = is.length)
    (hpay : parse (instrAnswer st.instr "CALCulate:DATa? Sdata") =
      interleave rs is) :
    (_get_data fuel parse st trace "real-imag").1 = Except.ok (rs, is) := by
  rw [get_data_io fuel hf parse st trace "real-imag" hstb]
  show getDataCompute _ "real-imag" = _
  rw [hpay]
  exact getDataCompute_ri rs is h

/-- Witness for C8 at the payload 1,0,0,1 = interleave of (1,0) and (0,1). -/
theorem get_data_real_imag_witness :
    (_get_data 2 parse0 st0 "Trc1" "real-imag").1 =
      Except.ok ([1, 0], [0, 1]) :=
  get_data_real_imag 2 le_rfl parse0 st0 "Trc1" [1, 0] [0, 1] rfl rfl rfl

/-- C9: format matching is case-insensitive: any string lowercasing to one of
the three format names makes `_get_data` behave exactly as on the lowercase
spelling, and only strings lowercasing to none of the three raise the
invalid-argument error. -/
theorem get_data_format_case_insensitive (fuel : Nat) (hf : 2 ≤ fuel)
    (parse : String → List ℝ) (st : VNAState) (trace s : String)
    (hstb : st.instr.stb = 0) :
    (pyLower s = "real-imag" →
      _get_data fuel parse st trace s =
        _get_data fuel parse st trace "real-imag") ∧
    (pyLower s = "db-phase" →
      _get_data fuel parse st trace s =
        _get_data fuel parse st trace "db-phase") ∧
    (pyLower s = "amp-phase" →
      _get_data fuel parse st trace s =
        _get_data fuel parse st trace "amp-phase") ∧
    (pyLower s ≠ "real-imag" → pyLower s ≠ "db-phase" →
      pyLower s ≠ "amp-phase" →
      ∀ pairs,
        reshape2 (parse (instrAnswer st.instr "CALCulate:DATa? Sdata")) =
          some pairs →
        (_get_data fuel parse st trace s).1 =
          Except.error (PyError.valueError badFormatMsg)) := by
  have hio := get_data_io fuel hf parse st trace
  refine ⟨?_, ?_, ?_, ?_⟩
  · intro h
    rw [hio s hstb, hio "real-imag" hstb, (getDataCompute_lower s _).1 h]
  · intro h
    rw [hio s hstb, hio "db-phase" hstb, (getDataCompute_lower s _).2.1 h]
  · intro h
    rw [hio s hstb, hio "amp-phase" hstb, (getDataCompute_lower s _).2.2.1 h]
  · intro h1 h2 h3 pairs hp
    rw [hio s hstb]
    exact (getDataCompute_lower s _).2.2.2 h1 h2 h3 pairs hp

/-- Witness for C9: "DB-PHASE" and "Real-Imag" behave as their lowercase
spellings; "bogus" raises the format error. -/
theorem get_data_format_case_insensitive_witness :
    _get_data 2 parse0 st0 "Trc1" "DB-PHASE" =
      _get_data 2 parse0 st0 "Trc1" "db-phase" ∧
    _get_data 2 parse0 st0 "Trc1" "Real-Imag" =
      _get_data 2 parse0 st0 "Trc1" "real-imag" ∧
    (_get_data 2 parse0 st0 "Trc1" "BOGUS").1 =
      Except.error (PyError.valueError badFormatMsg) :=
  ⟨(get_data_format_case_insensitive 2 le_rfl parse0 st0 "Trc1" "DB-PHASE"
      rfl).2.1 (by decide),
   (get_data_format_case_insensitive 2 le_rfl parse0 st0 "Trc1" "Real-Imag"
      rfl).1 (by decide),
   (get_data_format_case_insensitive 2 le_rfl parse0 st0 "Trc1" "BOGUS"
      rfl).2.2.2 (by decide) (by decide) (by decide) [(1, 0), (0, 1)] rfl⟩

/-- C10: a payload with an even count 2N of values reshapes into N
(real, imaginary) pairs; a payload with an odd count makes `_get_data` fail
with the reshape error before returning any result, for every format
string. -/
theorem get_data_parity (fuel : Nat) (hf : 2 ≤ fuel)
    (parse : String → List ℝ) (st : VNAState) (trace fmt : String)
    (hstb : st.instr.stb = 0) :
    ((parse (instrAnswer st.instr "CALCulate:DATa? Sdata")).length % 2 = 0 →
      ∃ pairs,
        reshape2 (parse (instrAnswer st.instr "CALCulate:DATa? Sdata")) =
          some pairs ∧
        2 * pairs.length =
          (parse (instrAnswer st.instr "CALCulate:DATa? Sdata")).length) ∧
    ((parse (instrAnswer st.instr "CALCulate:DATa? Sdata")).length % 2 = 1 →
      (_get_data fuel parse st trace fmt).1 =
        Except.error (PyError.valueError reshapeErrMsg)) := by
  constructor
  · intro h
    obtain ⟨N, hN⟩ : ∃ N,
        (parse (instrAnswer st.instr "CALCulate:DATa? Sdata")).length =
          2 * N :=
      ⟨(parse (instrAnswer st.instr "CALCulate:DATa? Sdata")).length / 2,
        by omega⟩
    obtain ⟨pairs, hp, hl⟩ := reshape2_even N _ hN
    exact ⟨pairs, hp, by omega⟩
  · intro h
    rw [get_data_io fuel hf parse st trace fmt hstb]
    show getDataCompute _ fmt = _
    simp only [getDataCompute, reshape2_odd _ h]

/-- Witness for C10 at an even payload of four values and an odd payload of
three values. -/
theorem get_data_parity_witness :
    (∃ pairs,
      reshape2 (parse0 (instrAnswer st0.instr "CALCulate:DATa? Sdata")) =
        some pairs ∧
      2 * pairs.length =
        (parse0 (instrAnswer st0.instr "CALCulate:DATa? Sdata")).length) ∧
    (_get_data 2 parseOdd st0 "Trc1" "db-phase").1 =
      Except.error (PyError.valueError reshapeErrMsg) :=
  ⟨(get_data_parity 2 le_rfl parse0 st0 "Trc1" "db-phase" rfl).1 rfl,
   (get_data_parity 2 le_rfl parseOdd st0 "Trc1" "db-phase" rfl).2 rfl⟩

end Znb
